import Mathlib

/-!
Shallow embedding of the medical-assistant application (`app.py`) and proofs
of its specified properties.

Pure string/scoring functions are translated directly.  Network effects
(the search HTTP calls and the completion-model call) are made explicit
parameters: a search response is an `Except Unit (List Item)` (`Except.error`
standing for any raised exception on the call, `Except.ok items` for a
successful parse of the JSON item list), and the completion model is a
function `String → Except String String` (`Except.error e` standing for a
raised exception whose message formats as `e`).  Floats are modelled as `ℚ`:
every constant in the program (3, 3.5, 4, 4.5, 5, 0.5, 1) and every sum or
`min`/`max` of them is exactly representable in binary floating point, so
rational arithmetic agrees with the Python float arithmetic on all values the
program can produce.
-/

/-- Decides whether the first list is one of the first `needle.length`-long
blocks of the second, i.e. a leading block match.  Helper for the substring
test below. -/
def isPre : List Char → List Char → Bool
  | [], _ => true
  | _ :: _, [] => false
  | a :: as, b :: bs => (a = b) && isPre as bs

/-- Decides whether `needle` occurs contiguously inside `hay`. -/
def isSub (needle : List Char) : List Char → Bool
  | [] => needle.isEmpty
  | c :: rest => isPre needle (c :: rest) || isSub needle rest

/-- Python's substring test `needle in hay` on strings. -/
def pyIn (needle hay : String) : Bool :=
  isSub needle.toList hay.toList

/-- Python's `str.lower()` restricted to its ASCII action, which is all the
program's keyword comparisons depend on: each uppercase Latin letter is
mapped to its lowercase form. -/
def pyLower (s : String) : String :=
  String.mk (s.toList.map Char.toLower)

/-- Python's `str.strip()` restricted to its ASCII action: removes leading
and trailing whitespace. -/
def pyStrip (s : String) : String :=
  String.mk
    (((s.toList.dropWhile Char.isWhitespace).reverse.dropWhile
        Char.isWhitespace).reverse)

/-- Characters allowed after the first character of a URL scheme
(`scheme_chars` in `urllib.parse`). -/
def isSchemeTail (c : Char) : Bool :=
  c.isAlphanum || c = '+' || c = '-' || c = '.'

/-- Splits a character list at the first colon, returning the parts before
and after it, or `none` when there is no colon. -/
def splitColon : List Char → Option (List Char × List Char)
  | [] => none
  | c :: cs =>
    if c = ':' then some ([], cs)
    else match splitColon cs with
      | some (before, after) => some (c :: before, after)
      | none => none

/-- Modelled from `urllib.parse.urlparse`: removes a leading `scheme:` when
the text before the first colon is a wellformed scheme (nonempty, starting
with a letter, continuing with scheme characters); otherwise returns the
input unchanged. -/
def dropScheme (cs : List Char) : List Char :=
  match splitColon cs with
  | some (c :: rest, after) =>
    if c.isAlpha && rest.all isSchemeTail then after else cs
  | _ => cs

/-- Modelled from `urllib.parse.urlparse(link).netloc`: after removing a
scheme, the authority component is present exactly when the remainder starts
with two slashes, and it extends to the first slash, question mark or hash;
otherwise the netloc is empty.  In particular malformed links without a
`//` yield the empty host rather than an error. -/
def netlocOf (url : String) : String :=
  match dropScheme url.toList with
  | '/' :: '/' :: rest =>
    String.mk (rest.takeWhile fun c => !(c = '/' || c = '?' || c = '#'))
  | _ => ""

/-- First tier of `compute_trust_score`: the top authority domains. -/
def topTier (domain : String) : Bool :=
  ["nhs.uk", "cdc.gov", "who.int", "mayoclinic.org", "clevelandclinic.org"].any
    fun site => pyIn site domain

/-- Second tier: generic government/education substrings plus Harvard
Health. -/
def govTier (domain : String) : Bool :=
  ["gov", "edu", "health.harvard.edu"].any fun site => pyIn site domain

/-- Third tier: the two named consumer-health sites. -/
def consumerTier (domain : String) : Bool :=
  pyIn "webmd.com" domain || pyIn "medlineplus.gov" domain

/-- Fourth tier: the biomedical-literature index. -/
def pubmedTier (domain : String) : Bool :=
  pyIn "pubmed" domain

/-- Recency bonus test of `compute_trust_score`: does the snippet mention one
of the three recent years. -/
def recentYear (snippet : String) : Bool :=
  ["2024", "2023", "2022"].any fun year => pyIn year snippet

/-- Translation of `compute_trust_score(link, snippet)` from `app.py` lines
28–45: tiered base score on the lowercased netloc, `+0.5` recency bonus,
capped at `5.0`. -/
def compute_trust_score (link snippet : String) : ℚ :=
  let domain := pyLower (netlocOf link)
  let score : ℚ :=
    if topTier domain then 5
    else if govTier domain then 4.5
    else if consumerTier domain then 4
    else if pubmedTier domain then 3.5
    else 3
  let score2 : ℚ := if recentYear snippet then score + 0.5 else score
  min score2 5.0

/-- A parsed search-result item: the three JSON fields the program reads
(`item["title"]`, `item["link"]`, `item["snippet"]`). -/
structure Item where
  title : String
  link : String
  snippet : String
deriving DecidableEq, Repr

/-- A `(title, link, snippet, score)` tuple as built by the search
functions. -/
structure SourceRecord where
  title : String
  link : String
  snippet : String
  score : ℚ
deriving DecidableEq, Repr

/-- The allow-list of trusted medical site qualifiers (`TRUSTED_SITES`). -/
def TRUSTED_SITES : List String :=
  ["site:nhs.uk", "site:nih.gov", "site:mayoclinic.org", "site:who.int",
   "site:cdc.gov", "site:clevelandclinic.org", "site:health.harvard.edu",
   "site:pubmed.ncbi.nlm.nih.gov", "site:webmd.com", "site:medlineplus.gov"]

/-- The full medical query built by `get_medical_snippets`:
`f"{query} ({domain_query})"` with the sites joined by `" OR "`. -/
def medicalFullQuery (query : String) : String :=
  query ++ " (" ++ String.intercalate " OR " TRUSTED_SITES ++ ")"

/-- The sort `items.sort(key=lambda x: 0 if "nhs.uk" in x.get("link", "")
else 1)` from `app.py` line 56.  Python's list sort is stable, and a stable
sort on a two-valued key is exactly the stable partition: all key-0 items in
original order, then all key-1 items in original order. -/
def sortNhsFirst (items : List Item) : List Item :=
  items.filter (fun x => pyIn "nhs.uk" x.link) ++
    items.filter (fun x => !(pyIn "nhs.uk" x.link))

/-- The record built for one medical item in the loop of
`get_medical_snippets`. -/
def scoreItem (it : Item) : SourceRecord :=
  ⟨it.title, it.link, it.snippet, compute_trust_score it.link it.snippet⟩

/-- Translation of `get_medical_snippets` (`app.py` lines 48–67) with the
HTTP call made explicit: `response` is `Except.error ()` when the request,
status check or JSON access raises (the `except` branch returns `[]`), and
`Except.ok items` on a successful parse of the `items` field (an absent
field parses as `[]`).  On success the items are sorted with the national
health service domain first and each is scored. -/
def get_medical_snippets (response : Except Unit (List Item)) :
    List SourceRecord :=
  match response with
  | .error _ => []
  | .ok items => (sortNhsFirst items).map scoreItem

/-- The fixed fallback message of `answer_medical_question`. -/
def fallbackMessage : String := "Sorry, no reliable sources available now."

/-- The prompt assembled by `answer_medical_question` (`app.py` lines
78–89): context lines are `f"- **{title}**: {snippet}"` joined by
newlines. -/
def medicalPrompt (question : String) (snippets : List SourceRecord) :
    String :=
  let context := String.intercalate "\n"
    (snippets.map fun r => "- **" ++ r.title ++ "**: " ++ r.snippet)
  "\nAnswer clearly using snippets below.\n" ++
    "Mention both common and serious conditions if symptoms provided.\n" ++
    "End with: \"Talk to a doctor to be sure.\"\n\nSnippets:\n" ++
    context ++ "\n\nQuestion: " ++ question ++ "\n\nAnswer:\n"

/-- Translation of `answer_medical_question` (`app.py` lines 70–98) with
both network effects explicit: `response` is the medical search outcome fed
to `get_medical_snippets`, and `complete` is the completion model
(`Except.error e` standing for a raised exception with message `e`, on
which the function returns the `OpenAI API Error:` string and no sources;
`Except.ok content` standing for the returned message content, which is
stripped and suffixed with the fixed disclaimer).  When the search yields
no snippets the function short-circuits with the fallback message and an
empty source list, consulting `complete` not at all. -/
def answer_medical_question (question : String)
    (response : Except Unit (List Item))
    (complete : String → Except String String) :
    String × List SourceRecord :=
  let snippets := get_medical_snippets response
  if snippets = [] then (fallbackMessage, [])
  else
    let sources := snippets.map fun r => (⟨r.title, r.link, r.snippet, r.score⟩ : SourceRecord)
    match complete (medicalPrompt question snippets) with
    | .ok content =>
      (pyStrip content ++ "\n\n**Disclaimer:** Always consult your healthcare provider.",
        sources)
    | .error e => ("OpenAI API Error: " ++ e, [])

/-- The ordered severity keyword table (`SEVERITY_KEYWORDS`): Python dicts
iterate in insertion order, so the levels are checked in this order. -/
def SEVERITY_KEYWORDS : List (String × List String) :=
  [("🔴 Immediate",
    ["chest pain", "vision loss", "stroke", "aneurysm", "severe headache"]),
   ("🟠 Urgent",
    ["high fever", "severe pain", "vomiting", "sudden dizziness"]),
   ("🟢 Routine", [])]

/-- Translation of `classify_severity` (`app.py` lines 123–128): lowercase
the query, return the first level one of whose keywords occurs in it,
defaulting to Routine. -/
def classify_severity (query : String) : String :=
  let q := pyLower query
  match SEVERITY_KEYWORDS.find? (fun lw => lw.2.any fun w => pyIn w q) with
  | some lw => lw.1
  | none => "🟢 Routine"

/-- The social platform allow-list (`SOCIAL_MEDIA_SITES`). -/
def SOCIAL_MEDIA_SITES : List String :=
  ["site:reddit.com", "site:healthunlocked.com"]

/-- The record built for one social item in the loop of
`get_social_snippets` (`app.py` lines 145–146): trust score minus one,
floored at `1.0` by `max(score, 1.0)`. -/
def scoreSocial (it : Item) : SourceRecord :=
  ⟨it.title, it.link, it.snippet,
    max (compute_trust_score it.link it.snippet - 1) 1.0⟩

/-- Translation of `get_social_snippets` (`app.py` lines 133–149) with the
per-platform HTTP call made explicit: `fetch site` is the outcome of the
search request issued for that platform qualifier (`Except.error ()` when
the request, status check or JSON access raises, in which case the
`except ... continue` contributes nothing for that platform and the loop
moves on).  Successful platforms append their scored items in order. -/
def get_social_snippets (fetch : String → Except Unit (List Item)) :
    List SourceRecord :=
  SOCIAL_MEDIA_SITES.foldl
    (fun snippets site =>
      match fetch site with
      | .error _ => snippets
      | .ok items => snippets ++ items.map scoreSocial)
    []

/-- A concrete per-platform search environment: the first platform's call
raises, the second succeeds with one item.  Used to exhibit the failure
isolation of `get_social_snippets` on an explicit input. -/
def socialFetchW : String → Except Unit (List Item) := fun site =>
  if site = "site:reddit.com" then Except.error ()
  else Except.ok [⟨"t", "https://www.reddit.com/r/health", "a post from 2024"⟩]

/-- C1: for every link string and every snippet string,
`compute_trust_score` returns a value in the closed interval `[1.0, 5.0]`,
including for malformed links whose host extraction yields an empty host. -/
theorem compute_trust_score_bounds (link snippet : String) :
    1.0 ≤ compute_trust_score link snippet ∧
      compute_trust_score link snippet ≤ 5.0 := by
  unfold compute_trust_score
  refine ⟨le_min ?_ (by norm_num), min_le_right _ _⟩
  split_ifs <;> norm_num

/-- C2: with the snippet held fixed, a link whose host matches the top-tier
authority set scores at least as much as a link whose host lands in the
generic government/education tier (tier one failing, tier two matching),
which in turn scores at least as much as a link matching no tier at all. -/
theorem tier_monotonicity (snippet l1 l2 l3 : String)
    (h1 : topTier (pyLower (netlocOf l1)) = true)
    (h2top : topTier (pyLower (netlocOf l2)) = false)
    (h2gov : govTier (pyLower (netlocOf l2)) = true)
    (h3top : topTier (pyLower (netlocOf l3)) = false)
    (h3gov : govTier (pyLower (netlocOf l3)) = false)
    (h3con : consumerTier (pyLower (netlocOf l3)) = false)
    (h3pub : pubmedTier (pyLower (netlocOf l3)) = false) :
    compute_trust_score l3 snippet ≤ compute_trust_score l2 snippet ∧
      compute_trust_score l2 snippet ≤ compute_trust_score l1 snippet := by
  unfold compute_trust_score
  simp only [h1, h2top, h2gov, h3top, h3gov, h3con, h3pub,
    if_true, if_false, Bool.false_eq_true, ite_false, ite_true]
  cases hb : recentYear snippet <;>
    simp only [hb, Bool.false_eq_true, ite_false, ite_true] <;>
    constructor <;> norm_num [min_def]

/-- C2 witness: concrete links on each tier with an empty snippet. -/
theorem tier_monotonicity_witness :
    (topTier (pyLower (netlocOf "https://www.nhs.uk/conditions")) = true ∧
      topTier (pyLower (netlocOf "https://www.usa.gov/health")) = false ∧
      govTier (pyLower (netlocOf "https://www.usa.gov/health")) = true ∧
      topTier (pyLower (netlocOf "https://example.com/page")) = false ∧
      govTier (pyLower (netlocOf "https://example.com/page")) = false ∧
      consumerTier (pyLower (netlocOf "https://example.com/page")) = false ∧
      pubmedTier (pyLower (netlocOf "https://example.com/page")) = false) ∧
    (compute_trust_score "https://example.com/page" "" ≤
        compute_trust_score "https://www.usa.gov/health" "" ∧
      compute_trust_score "https://www.usa.gov/health" "" ≤
        compute_trust_score "https://www.nhs.uk/conditions" "") :=
  ⟨by decide,
    tier_monotonicity "" "https://www.nhs.uk/conditions"
      "https://www.usa.gov/health" "https://example.com/page"
      (by decide) (by decide) (by decide) (by decide) (by decide)
      (by decide) (by decide)⟩

/-- C3: `classify_severity` is total: every input string maps to exactly one
of the three defined levels, and the empty string classifies as Routine. -/
theorem classify_severity_total (query : String) :
    (classify_severity query = "🔴 Immediate" ∨
      classify_severity query = "🟠 Urgent" ∨
      classify_severity query = "🟢 Routine") ∧
    classify_severity "" = "🟢 Routine" := by
  constructor
  · unfold classify_severity
    cases hf : SEVERITY_KEYWORDS.find?
        (fun lw => lw.2.any fun w => pyIn w (pyLower query)) with
    | none => simp only [hf]; simp
    | some lw =>
      have hmem := List.mem_of_find?_eq_some hf
      simp only [SEVERITY_KEYWORDS, List.mem_cons, List.not_mem_nil,
        or_false] at hmem
      rcases hmem with h | h | h <;> subst h <;> simp only [hf] <;> simp
  · decide

/-- C4: a query containing both the Immediate keyword "chest pain" and the
Urgent keyword "high fever" (in its lowercased form) classifies as
Immediate, because Immediate keywords are checked first. -/
theorem classify_severity_precedence (query : String)
    (hchest : pyIn "chest pain" (pyLower query) = true)
    (_hfever : pyIn "high fever" (pyLower query) = true) :
    classify_severity query = "🔴 Immediate" := by
  unfold classify_severity
  simp [SEVERITY_KEYWORDS, List.find?, hchest]

/-- C4 witness: a concrete query holding both keywords. -/
theorem classify_severity_precedence_witness :
    (pyIn "chest pain" (pyLower "I have Chest Pain and High Fever") = true ∧
      pyIn "high fever" (pyLower "I have Chest Pain and High Fever") = true) ∧
    classify_severity "I have Chest Pain and High Fever" = "🔴 Immediate" :=
  ⟨by decide,
    classify_severity_precedence "I have Chest Pain and High Fever"
      (by decide) (by decide)⟩

/-- C5: when the medical search yields an empty result sequence,
`answer_medical_question` returns exactly the fixed fallback message with an
empty source list, and the result does not depend on the completion model at
all (no model call is made). -/
theorem answer_zero_sources (question : String)
    (response : Except Unit (List Item))
    (c1 c2 : String → Except String String)
    (h : get_medical_snippets response = []) :
    answer_medical_question question response c1 =
        ("Sorry, no reliable sources available now.", []) ∧
      answer_medical_question question response c1 =
        answer_medical_question question response c2 := by
  unfold answer_medical_question fallbackMessage
  simp [h]

/-- C5 witness: a failing search response and two different completion
models. -/
theorem answer_zero_sources_witness :
    get_medical_snippets (Except.error ()) = [] ∧
      (answer_medical_question "q" (Except.error ())
          (fun _ => Except.ok "a") =
          ("Sorry, no reliable sources available now.", []) ∧
        answer_medical_question "q" (Except.error ())
            (fun _ => Except.ok "a") =
          answer_medical_question "q" (Except.error ())
            (fun _ => Except.error "b")) :=
  ⟨rfl, answer_zero_sources "q" (Except.error ()) _ _ rfl⟩

/-- Counterexample to C6 as stated: the code passes `num=5` to the search
API but performs no client-side truncation, so a response carrying six
items produces six source records. -/
theorem answer_count_counterexample :
    5 < (answer_medical_question "q"
        (Except.ok
          [⟨"t1", "https://e.example/1", "s"⟩, ⟨"t2", "https://e.example/2", "s"⟩,
           ⟨"t3", "https://e.example/3", "s"⟩, ⟨"t4", "https://e.example/4", "s"⟩,
           ⟨"t5", "https://e.example/5", "s"⟩, ⟨"t6", "https://e.example/6", "s"⟩])
        (fun _ => Except.ok "answer")).2.length := by
  decide

/-- The national-health-service-first sort is a permutation, so it preserves
length. -/
theorem sortNhsFirst_length (items : List Item) :
    (sortNhsFirst items).length = items.length := by
  unfold sortNhsFirst
  rw [List.length_append]
  exact (List.length_eq_length_filter_add
    (fun (x : Item) => pyIn "nhs.uk" x.link)).symm

/-- C6 (amended): `answer_medical_question` produces one source record per
response item, so it returns at most 5 records whenever the search response
carries at most 5 items (the request asks the API for 5); the code itself
does not truncate a longer response. -/
theorem answer_count_bound (question : String) (items : List Item)
    (complete : String → Except String String)
    (h : items.length ≤ 5) :
    (answer_medical_question question (Except.ok items) complete).2.length
      ≤ 5 := by
  unfold answer_medical_question
  by_cases hempty : get_medical_snippets (Except.ok items) = []
  · simp [hempty]
  · simp only [hempty, if_neg, ite_false]
    cases hc : complete
        (medicalPrompt question (get_medical_snippets (Except.ok items))) with
    | ok content =>
      simp only [List.length_map]
      calc (get_medical_snippets (Except.ok items)).length
          = items.length := by
            unfold get_medical_snippets
            rw [List.length_map, sortNhsFirst_length]
        _ ≤ 5 := h
    | error e => simp

/-- C6 witness: a five-item response. -/
theorem answer_count_bound_witness :
    ([(⟨"t1", "https://e.example/1", "s"⟩ : Item),
      ⟨"t2", "https://e.example/2", "s"⟩, ⟨"t3", "https://e.example/3", "s"⟩,
      ⟨"t4", "https://e.example/4", "s"⟩,
      ⟨"t5", "https://e.example/5", "s"⟩].length ≤ 5) ∧
    (answer_medical_question "q"
        (Except.ok
          [⟨"t1", "https://e.example/1", "s"⟩, ⟨"t2", "https://e.example/2", "s"⟩,
           ⟨"t3", "https://e.example/3", "s"⟩, ⟨"t4", "https://e.example/4", "s"⟩,
           ⟨"t5", "https://e.example/5", "s"⟩])
        (fun _ => Except.ok "answer")).2.length ≤ 5 :=
  ⟨by decide,
    answer_count_bound "q"
      [⟨"t1", "https://e.example/1", "s"⟩, ⟨"t2", "https://e.example/2", "s"⟩,
       ⟨"t3", "https://e.example/3", "s"⟩, ⟨"t4", "https://e.example/4", "s"⟩,
       ⟨"t5", "https://e.example/5", "s"⟩]
      (fun _ => Except.ok "answer") (by decide)⟩

/-- C7: when exactly one item's link contains the top-tier authority domain,
`get_medical_snippets` places that item's record first and keeps every other
record in the original relative order. -/
theorem ranking_stability (pre post : List Item) (x : Item)
    (hx : pyIn "nhs.uk" x.link = true)
    (hpre : ∀ y ∈ pre, pyIn "nhs.uk" y.link = false)
    (hpost : ∀ y ∈ post, pyIn "nhs.uk" y.link = false) :
    get_medical_snippets (Except.ok (pre ++ x :: post)) =
      scoreItem x :: (pre ++ post).map scoreItem := by
  have hp1 : pre.filter (fun y => pyIn "nhs.uk" y.link) = [] :=
    List.filter_eq_nil_iff.mpr fun a ha => by simp [hpre a ha]
  have hp2 : post.filter (fun y => pyIn "nhs.uk" y.link) = [] :=
    List.filter_eq_nil_iff.mpr fun a ha => by simp [hpost a ha]
  have hq1 : pre.filter (fun y => !(pyIn "nhs.uk" y.link)) = pre :=
    List.filter_eq_self.mpr fun a ha => by simp [hpre a ha]
  have hq2 : post.filter (fun y => !(pyIn "nhs.uk" y.link)) = post :=
    List.filter_eq_self.mpr fun a ha => by simp [hpost a ha]
  unfold get_medical_snippets sortNhsFirst
  simp [List.filter_append, List.filter_cons, hx, hp1, hp2, hq1, hq2]

/-- C7 witness: a three-item response whose middle item is the only one on
the authority domain. -/
theorem ranking_stability_witness :
    (pyIn "nhs.uk" (⟨"n", "https://www.nhs.uk/x", "s"⟩ : Item).link = true ∧
      (∀ y ∈ [(⟨"a", "https://cdc.gov/a", "s"⟩ : Item)],
        pyIn "nhs.uk" y.link = false) ∧
      (∀ y ∈ [(⟨"b", "https://who.int/b", "s"⟩ : Item)],
        pyIn "nhs.uk" y.link = false)) ∧
    get_medical_snippets (Except.ok
        ([(⟨"a", "https://cdc.gov/a", "s"⟩ : Item)] ++
          (⟨"n", "https://www.nhs.uk/x", "s"⟩ : Item) ::
            [(⟨"b", "https://who.int/b", "s"⟩ : Item)])) =
      scoreItem ⟨"n", "https://www.nhs.uk/x", "s"⟩ ::
        ([(⟨"a", "https://cdc.gov/a", "s"⟩ : Item)] ++
          [(⟨"b", "https://who.int/b", "s"⟩ : Item)]).map scoreItem :=
  ⟨⟨by decide, by decide, by decide⟩,
    ranking_stability [⟨"a", "https://cdc.gov/a", "s"⟩]
      [⟨"b", "https://who.int/b", "s"⟩] ⟨"n", "https://www.nhs.uk/x", "s"⟩
      (by decide) (by decide) (by decide)⟩

/-- C8: a failure during one social platform's search call contributes zero
results for that platform but does not abort retrieval from the other
configured platform: whichever of the two platforms fails, if the other
one succeeds with a nonempty item list, exactly its scored results appear
in the output, which in particular is nonempty. -/
theorem social_failure_isolation (fetch : String → Except Unit (List Item))
    (items : List Item) (hne : items ≠ []) :
    (fetch "site:reddit.com" = Except.error () →
      fetch "site:healthunlocked.com" = Except.ok items →
        get_social_snippets fetch = items.map scoreSocial ∧
          get_social_snippets fetch ≠ []) ∧
    (fetch "site:healthunlocked.com" = Except.error () →
      fetch "site:reddit.com" = Except.ok items →
        get_social_snippets fetch = items.map scoreSocial ∧
          get_social_snippets fetch ≠ []) := by
  constructor <;> intro h1 h2 <;>
    simp [get_social_snippets, SOCIAL_MEDIA_SITES, h1, h2, hne]

/-- C8 witness: the first platform's call raises, the second returns one
item, which survives in the output. -/
theorem social_failure_isolation_witness :
    ([(⟨"t", "https://www.reddit.com/r/health", "a post from 2024"⟩ : Item)]
        ≠ [] ∧
      socialFetchW "site:reddit.com" = Except.error () ∧
      socialFetchW "site:healthunlocked.com" =
        Except.ok [⟨"t", "https://www.reddit.com/r/health", "a post from 2024"⟩]) ∧
    (get_social_snippets socialFetchW =
        [(⟨"t", "https://www.reddit.com/r/health", "a post from 2024"⟩ :
          Item)].map scoreSocial ∧
      get_social_snippets socialFetchW ≠ []) :=
  ⟨⟨by decide, rfl, rfl⟩,
    (social_failure_isolation socialFetchW
        [⟨"t", "https://www.reddit.com/r/health", "a post from 2024"⟩]
        (by decide)).1 rfl rfl⟩

/-- C9: the lowest tier base being 3.0, `compute_trust_score` is bounded
below by 3.0 on every input, so every social record's final score is the
raw penalised score (the `max` floor at 1.0 never changes a value) and is
at least 2.0. -/
theorem trust_score_floor (title link snippet : String) :
    3 ≤ compute_trust_score link snippet ∧
      (scoreSocial ⟨title, link, snippet⟩).score =
        compute_trust_score link snippet - 1 ∧
      2 ≤ (scoreSocial ⟨title, link, snippet⟩).score := by
  have h3 : (3 : ℚ) ≤ compute_trust_score link snippet := by
    unfold compute_trust_score
    refine le_min ?_ (by norm_num)
    split_ifs <;> norm_num
  have hmax : (scoreSocial ⟨title, link, snippet⟩).score =
      compute_trust_score link snippet - 1 := by
    unfold scoreSocial
    exact max_eq_left (by linarith)
  exact ⟨h3, hmax, by rw [hmax]; linarith⟩

/-- C10: when the completion-model call raises, `answer_medical_question`
returns the error string naming the underlying cause with an empty source
list — the already-retrieved source records are discarded. -/
theorem completion_error_discards_sources (question : String)
    (response : Except Unit (List Item)) (e : String)
    (complete : String → Except String String)
    (hc : ∀ p, complete p = Except.error e)
    (hne : get_medical_snippets response ≠ []) :
    answer_medical_question question response complete =
      ("OpenAI API Error: " ++ e, []) := by
  unfold answer_medical_question
  simp [hne, hc]

/-- C10 witness: a successful one-item search and a completion model that
always raises. -/
theorem completion_error_discards_sources_witness :
    ((∀ p : String,
        (fun _ : String => (Except.error "boom" : Except String String)) p =
          Except.error "boom") ∧
      get_medical_snippets
          (Except.ok [(⟨"t", "https://www.nhs.uk/a", "s"⟩ : Item)]) ≠ []) ∧
    answer_medical_question "q"
        (Except.ok [(⟨"t", "https://www.nhs.uk/a", "s"⟩ : Item)])
        (fun _ : String => Except.error "boom") =
      ("OpenAI API Error: " ++ "boom", []) :=
  ⟨⟨fun _ => rfl, by decide⟩,
    completion_error_discards_sources "q"
      (Except.ok [⟨"t", "https://www.nhs.uk/a", "s"⟩]) "boom"
      (fun _ : String => Except.error "boom") (fun _ => rfl) (by decide)⟩
